import Mathlib

/-!
Verification of the vue-go product-email service (src/main.go) against its
natural-language specification.

The program is a thin HTTP wrapper over an external transactional-email
provider (mailgun-go v4).  We shallowly embed:

  * `Config`, `ProductEmail` — the two data records (src/main.go lines 16-35);
  * `sprintf` — the fragment of Go's `fmt.Sprintf` the program uses
    (verbs `%s` and `%.2f`), with `%.2f` rendering an exact rational value
    to two decimal digits by round-to-nearest, ties-to-even, as Go's
    `strconv` formatting does on the exact binary value of the float;
  * `formatProductEmail`, `senderString`, `productMessage`,
    `SendProductEmail` — the email-sender component (lines 46-73), with the
    provider's `Send` abstracted as a function argument
    `send : Message → SendOutcome`.  mailgun-go v4's `Send` returns
    `(mes, id, err)` — the human-readable response message first and the
    message id second — and the handler (line 98) accordingly binds the two
    strings as `resp, id`.  `SendOutcome` therefore carries the pair in
    that order: first component response text, second component message id;
  * `SendProductHandler` — the HTTP handler (lines 88-109), parameterised
    over the outcome of Gin's `BindJSON` (an external library), and
    returning both the HTTP response and the number of times the email
    sender was invoked;
  * `corsMiddleware` — the CORS middleware installed in `main`
    (lines 132-144).

Floating-point prices are modelled as exact rationals (`ℚ`): every finite
float64 is an exact rational, and Go formats the exact binary value.
-/

/-- Application configuration (src/main.go lines 16-21). -/
structure Config where
  Domain : String
  ApiKey : String
  FromName : String
  FromEmail : String
deriving Repr, DecidableEq

/-- The product email request (src/main.go lines 30-35).  `Price` is a
float64 in Go; it is modelled as the exact rational value of the float. -/
structure ProductEmail where
  ProductName : String
  Price : ℚ
  Description : String
  RecipientEmail : String
deriving Repr, DecidableEq

/-- The message handed to the provider, as built by
`mailgun.NewMessage(sender, subject, body, recipient)` (src/main.go
lines 50-55). -/
structure Message where
  sender : String
  subject : String
  body : String
  recipient : String
deriving Repr, DecidableEq

/-- Outcome of the provider's `Send` (mailgun-go v4:
`Send(ctx, message) (mes string, id string, err error)`): on success a pair
whose FIRST component is the provider's human-readable response message and
whose SECOND component is the provider's message id, mirroring the order of
Go's multiple return values; on failure an opaque error (modelled as a
string). -/
abbrev SendOutcome : Type := Except String (String × String)

/-- Round the fraction `n / d` (with `d > 0`) to the nearest natural
number, ties to even — the rounding Go's `strconv` formatting applies to
the exact decimal expansion of the binary value of a float when asked for
a fixed number of decimals. -/
def roundHalfEvenNat (n d : ℕ) : ℕ :=
  if 2 * (n % d) < d then n / d
  else if d < 2 * (n % d) then n / d + 1
  else if n / d % 2 = 0 then n / d else n / d + 1

/-- Render a natural number below 100 as exactly two digits. -/
def pad2 (n : ℕ) : String :=
  if n < 10 then "0" ++ toString n else toString n

/-- `%.2f` on a non-negative rational `q`: round `100·q` (that is,
`100·q.num / q.den`) to the nearest integer, ties to even, and print it
with the last two digits after a dot. -/
def fmtF2nn (q : ℚ) : String :=
  let n : ℕ := roundHalfEvenNat (100 * q.num.toNat) q.den
  toString (n / 100) ++ "." ++ pad2 (n % 100)

/-- Go's `%.2f` formatting of the exact rational value of a float64:
a leading minus sign for negative values, then the magnitude rounded to
two decimals. -/
def fmtF2 (q : ℚ) : String :=
  if q < 0 then "-" ++ fmtF2nn (-q) else fmtF2nn q

/-- Arguments to `sprintf`: Go interface values, here strings (for `%s`)
and float64s (for `%.2f`, modelled as exact rationals). -/
inductive FmtArg
  | s (v : String)
  | f (v : ℚ)
deriving Repr

/-- Core of `fmt.Sprintf` restricted to the two verbs the program uses:
walk the format character list, substituting `%s` with the next string
argument and `%.2f` with the next float argument rendered to two
decimals. -/
def sprintfAux : List Char → List FmtArg → List Char
  | [], _ => []
  | '%' :: 's' :: rest, FmtArg.s v :: args => v.data ++ sprintfAux rest args
  | '%' :: '.' :: '2' :: 'f' :: rest, FmtArg.f v :: args =>
      (fmtF2 v).data ++ sprintfAux rest args
  | c :: rest, args => c :: sprintfAux rest args

/-- `fmt.Sprintf` for the format strings appearing in src/main.go. -/
def sprintf (fmt : String) (args : List FmtArg) : String :=
  ⟨sprintfAux fmt.data args⟩

/-- The email body (src/main.go lines 61-73): `fmt.Sprintf` applied to the
raw-string template.  The Go raw string opens with a backtick immediately
followed by a line break, so the template begins with a newline character
and ends with one. -/
def formatProductEmail (data : ProductEmail) : String :=
  sprintf "\nProduct Details:\n---------------\nName: %s\nPrice: $%.2f\nDescription: %s\n"
    [FmtArg.s data.ProductName, FmtArg.f data.Price, FmtArg.s data.Description]

/-- The composed sender address (src/main.go line 48):
`fmt.Sprintf("%s <%s@%s>", FromName, FromEmail, Domain)`. -/
def senderString (cfg : Config) : String :=
  sprintf "%s <%s@%s>" [FmtArg.s cfg.FromName, FmtArg.s cfg.FromEmail, FmtArg.s cfg.Domain]

/-- The message built by `SendProductEmail` (src/main.go lines 50-55):
`mailgun.NewMessage(sender, "Product Information", emailBody,
data.RecipientEmail)`. -/
def productMessage (cfg : Config) (data : ProductEmail) : Message :=
  { sender := senderString cfg
    subject := "Product Information"
    body := formatProductEmail data
    recipient := data.RecipientEmail }

/-- `SendProductEmail` (src/main.go lines 46-58): format the body and the
sender, build the message, and return whatever the provider's `Send`
returns.  The provider call is abstracted as the argument `send`. -/
def SendProductEmail (send : Message → SendOutcome) (cfg : Config)
    (data : ProductEmail) : SendOutcome :=
  send (productMessage cfg data)

/-- Body of an HTTP response: empty (as after `AbortWithStatus(204)`) or a
JSON object with string values (as produced by `c.JSON` on the `gin.H`
literals of src/main.go, all of whose values are strings). -/
inductive ResponseBody
  | empty
  | json (fields : List (String × String))
deriving Repr, DecidableEq

/-- An HTTP response: status code, response headers, body. -/
structure HttpResponse where
  status : ℕ
  headers : List (String × String)
  body : ResponseBody
deriving Repr, DecidableEq

/-- `SendProductHandler` (src/main.go lines 88-109).  The outcome of Gin's
`BindJSON` (an external library) is passed in as `parsed`; an error value
yields the 400 response without touching the email service.  Otherwise the
sender is invoked once and its outcome mapped: line 98 binds the two
returned strings as `resp, id`, the error branch yields the fixed 500
response, and the success branch the 200 response with fields `message`,
`id`, `response`.  The second component of the result counts how many times
the email sender was invoked while handling the request. -/
def SendProductHandler (send : Message → SendOutcome) (cfg : Config)
    (parsed : Except String ProductEmail) : HttpResponse × ℕ :=
  match parsed with
  | Except.error _ =>
      ({ status := 400, headers := [], body := ResponseBody.json [("error", "Invalid request body")] }, 0)
  | Except.ok productData =>
      match SendProductEmail send cfg productData with
      | Except.error _ =>
          ({ status := 500, headers := [], body := ResponseBody.json [("error", "Failed to send email")] }, 1)
      | Except.ok (resp, id) =>
          ({ status := 200, headers := []
             body := ResponseBody.json
               [("message", "Email sent successfully"), ("id", id), ("response", resp)] }, 1)

/-- The four headers set by the CORS middleware (src/main.go lines
133-136), in source order.  Note the fourth: the code sets
`Access-Control-Max-Age` (the standard CORS header name). -/
def corsHeaders : List (String × String) :=
  [("Access-Control-Allow-Origin", "http://localhost:5173"),
   ("Access-Control-Allow-Methods", "POST, OPTIONS"),
   ("Access-Control-Allow-Headers", "Content-Type"),
   ("Access-Control-Max-Age", "86400")]

/-- The CORS middleware (src/main.go lines 132-144): set the four headers
on the response writer; if the request method is OPTIONS, abort with a
bodyless 204 without calling downstream handlers; otherwise run the
downstream chain (`c.Next()`) and keep the headers already set.  `next`
returns a response paired with the number of email-sender invocations it
performed; the middleware's result carries the same pair structure. -/
def corsMiddleware (method : String) (next : Unit → HttpResponse × ℕ) :
    HttpResponse × ℕ :=
  if method = "OPTIONS" then
    ({ status := 204, headers := corsHeaders, body := ResponseBody.empty }, 0)
  else
    let rn := next ()
    ({ rn.1 with headers := corsHeaders ++ rn.1.headers }, rn.2)

/-- Exact rational value of the float64 nearest to 9.1: mantissa
5122844576133939, exponent -49. -/
def float9p1 : ℚ := mkRat 5122844576133939 (2 ^ 49)

/-- Exact rational value of the float64 nearest to 19.999: mantissa
5629218059236409, exponent -48. -/
def float19p999 : ℚ := mkRat 5629218059236409 (2 ^ 48)

/-- Configuration used in the spec's sender-formatting scenario: from_name
Acme, from_email sales, domain acme.com. -/
def cfgAcme : Config :=
  { Domain := "acme.com", ApiKey := "key-123", FromName := "Acme", FromEmail := "sales" }

/-- The parsed form of the end-to-end scenario's request body. -/
def widgetRequest : ProductEmail :=
  { ProductName := "Widget", Price := mkRat 999 100, Description := "A widget"
    RecipientEmail := "a@b.com" }

/-- A mocked provider whose Send succeeds, reporting response text
"queued" and message id "msg-1" (mailgun-go returns the response message
first and the id second). -/
def providerQueued : Message → SendOutcome := fun _ => Except.ok ("queued", "msg-1")

/-- A mocked provider whose Send fails with an opaque error. -/
def providerFailing : Message → SendOutcome := fun _ =>
  Except.error "mailgun: connection refused"

/-- A request used for the recipient-independence witness. -/
def reqToAlice : ProductEmail :=
  { ProductName := "W", Price := 0, Description := "D", RecipientEmail := "alice@x.com" }

/-- The same product data as `reqToAlice` with a different recipient. -/
def reqToBob : ProductEmail :=
  { ProductName := "W", Price := 0, Description := "D", RecipientEmail := "bob@y.com" }

/-- A request with neutral field values, used to exhibit the exact shape of
the formatted body. -/
def plainData : ProductEmail :=
  { ProductName := "A", Price := 0, Description := "B", RecipientEmail := "e@x" }

/-- Half-to-even rounding is sound: after clearing the denominator, the
rounded value of `n / d` is within half a unit of the exact fraction.
Stated for an explicit decomposition `n = d * q + r`. -/
theorem roundHalfEvenNat_bound_aux (q r d : ℕ) (hd : 0 < d) (hrd : r < d) :
    2 * (((roundHalfEvenNat (d * q + r) d : ℤ)) * d - (d * q + r)).natAbs ≤ d := by
  have hdiv : (d * q + r) / d = q := by
    rw [Nat.mul_add_div hd, Nat.div_eq_of_lt hrd, Nat.add_zero]
  have hmod : (d * q + r) % d = r := by
    rw [Nat.mul_add_mod, Nat.mod_eq_of_lt hrd]
  unfold roundHalfEvenNat
  rw [hdiv, hmod]
  split
  · rw [show ((q : ℤ)) * d - ((d : ℤ) * q + r) = -(r : ℤ) from by ring,
      Int.natAbs_neg, Int.natAbs_ofNat]
    omega
  · split
    · rw [show (((q + 1 : ℕ)) : ℤ) * d - ((d : ℤ) * q + r) = (d : ℤ) - (r : ℤ) from by
        push_cast; ring]
      omega
    · split
      · rw [show ((q : ℤ)) * d - ((d : ℤ) * q + r) = -(r : ℤ) from by ring,
          Int.natAbs_neg, Int.natAbs_ofNat]
        omega
      · rw [show (((q + 1 : ℕ)) : ℤ) * d - ((d : ℤ) * q + r) = (d : ℤ) - (r : ℤ) from by
          push_cast; ring]
        omega

/-- Half-to-even rounding is sound for every numerator and positive
denominator. -/
theorem roundHalfEvenNat_bound (n d : ℕ) (hd : 0 < d) :
    2 * (((roundHalfEvenNat n d : ℤ)) * d - n).natAbs ≤ d := by
  have h := roundHalfEvenNat_bound_aux (n / d) (n % d) d hd (Nat.mod_lt _ hd)
  rw [show ((d : ℤ) * ((n / d : ℕ) : ℤ) + ((n % d : ℕ) : ℤ)) = (n : ℤ) from by
    exact_mod_cast Nat.div_add_mod n d] at h
  rwa [Nat.div_add_mod] at h

/-- The integer printed by the two-decimal formatter differs from the exact
value of `100·q` by at most one half, for every non-negative rational. -/
theorem roundHalfEvenNat_rat_bound (qq : ℚ) (hq : 0 ≤ qq) :
    |((roundHalfEvenNat (100 * qq.num.toNat) qq.den : ℚ)) - 100 * qq| ≤ 1 / 2 := by
  have hd : 0 < qq.den := qq.den_pos
  have hdq : (0 : ℚ) < (qq.den : ℚ) := by exact_mod_cast hd
  have hnum : ((qq.num.toNat : ℤ)) = qq.num := Int.toNat_of_nonneg (Rat.num_nonneg.mpr hq)
  have hmul : qq * (qq.den : ℚ) = (qq.num : ℚ) := by
    have h : ((qq.num : ℚ) / qq.den) * qq.den = qq * qq.den := by rw [Rat.num_div_den]
    rw [div_mul_cancel₀ _ (ne_of_gt hdq)] at h
    exact h.symm
  have hbound := roundHalfEvenNat_bound (100 * qq.num.toNat) qq.den hd
  set n' : ℕ := roundHalfEvenNat (100 * qq.num.toNat) qq.den with hn'
  have h2 : 2 * (((n' : ℤ)) * qq.den - (100 * qq.num.toNat : ℕ)) ≤ qq.den ∧
      2 * (((100 * qq.num.toNat : ℕ) : ℤ) - ((n' : ℤ)) * qq.den) ≤ qq.den := by
    omega
  have hcastN : (((100 * qq.num.toNat : ℕ)) : ℚ) = 100 * (qq.num : ℚ) := by
    push_cast
    rw [show ((qq.num.toNat : ℚ)) = ((qq.num : ℚ)) from by exact_mod_cast hnum]
  have hq2 : 2 * ((n' : ℚ) * qq.den - 100 * (qq.num : ℚ)) ≤ qq.den := by
    have hc : 2 * (((n' : ℚ)) * qq.den - (((100 * qq.num.toNat : ℕ)) : ℚ)) ≤ (qq.den : ℚ) := by
      exact_mod_cast h2.1
    rwa [hcastN] at hc
  have hq3 : 2 * (100 * (qq.num : ℚ) - (n' : ℚ) * qq.den) ≤ qq.den := by
    have hc : 2 * ((((100 * qq.num.toNat : ℕ)) : ℚ) - ((n' : ℚ)) * qq.den) ≤ (qq.den : ℚ) := by
      exact_mod_cast h2.2
    rwa [hcastN] at hc
  rw [abs_le]
  constructor
  · nlinarith [hq3, hdq, hmul]
  · nlinarith [hq2, hdq, hmul]

/-- The two-digit field printed after the decimal point always has length
two. -/
theorem pad2_length : ∀ m : ℕ, m < 100 → (pad2 m).length = 2 := by decide

/-- C1, counterexample.  The claim says the email sender returns the
provider's message id as the FIRST component of its result pair and the
response text as the second.  In the code, `SendProductEmail` returns the
provider's `Send` result unchanged, and mailgun-go v4's `Send` returns the
human-readable response message first and the message id second (the
handler at src/main.go line 98 binds them `resp, id`).  With a provider
reporting response text "queued" and message id "msg-1", the first
component of the sender's result is "queued" — the response text, which
differs from the id "msg-1". -/
theorem C1_counterexample :
    SendProductEmail providerQueued cfgAcme widgetRequest = Except.ok ("queued", "msg-1") ∧
    "queued" ≠ "msg-1" :=
  ⟨rfl, by decide⟩

/-- C1, amended: for every product email request and provider call, the
email sender returns the provider's response pair unchanged — the
provider's human-readable response text as the FIRST component and the
provider's message id as the SECOND component — and on provider failure it
propagates the provider's error unchanged. -/
theorem C1_send_passthrough (send : Message → SendOutcome) (cfg : Config)
    (data : ProductEmail) :
    (∀ r i, send (productMessage cfg data) = Except.ok (r, i) →
      SendProductEmail send cfg data = Except.ok (r, i)) ∧
    (∀ e, send (productMessage cfg data) = Except.error e →
      SendProductEmail send cfg data = Except.error e) :=
  ⟨fun _ _ h => h, fun _ h => h⟩

/-- C1, witness: with a provider reporting ("queued", "msg-1") the sender
returns exactly that pair; with a failing provider the error comes back
verbatim. -/
theorem C1_send_passthrough_witness :
    SendProductEmail providerQueued cfgAcme widgetRequest = Except.ok ("queued", "msg-1") ∧
    SendProductEmail providerFailing cfgAcme widgetRequest =
      Except.error "mailgun: connection refused" :=
  ⟨(C1_send_passthrough providerQueued cfgAcme widgetRequest).1 "queued" "msg-1" rfl,
   (C1_send_passthrough providerFailing cfgAcme widgetRequest).2
     "mailgun: connection refused" rfl⟩

/-- C2: for every request body that parses as the expected JSON shape,
when the provider call succeeds the handler responds 200 with a JSON body
whose "message" field is "Email sent successfully", whose "id" field is
the provider-reported message id, and whose "response" field is the
provider-reported response text. -/
theorem C2_success_response (send : Message → SendOutcome) (cfg : Config)
    (data : ProductEmail) (r i : String)
    (h : send (productMessage cfg data) = Except.ok (r, i)) :
    SendProductHandler send cfg (Except.ok data) =
      ({ status := 200, headers := []
         body := ResponseBody.json
           [("message", "Email sent successfully"), ("id", i), ("response", r)] }, 1) := by
  simp only [SendProductHandler, SendProductEmail, h]

/-- C2, witness: the end-to-end scenario — body parsed to the Widget
request, mocked provider returning id "msg-1" and response "queued" —
yields 200 with message "Email sent successfully", id "msg-1",
response "queued". -/
theorem C2_success_response_witness :
    SendProductHandler providerQueued cfgAcme (Except.ok widgetRequest) =
      ({ status := 200, headers := []
         body := ResponseBody.json
           [("message", "Email sent successfully"), ("id", "msg-1"),
            ("response", "queued")] }, 1) :=
  C2_success_response providerQueued cfgAcme widgetRequest "queued" "msg-1" rfl

/-- C3: for every request body that fails to deserialize into the expected
shape, the handler responds 400 with exactly the JSON object containing
"error": "Invalid request body", and the email sender is invoked zero
times for that request (with any provider and configuration). -/
theorem C3_bad_body (send : Message → SendOutcome) (cfg : Config) (e : String) :
    SendProductHandler send cfg (Except.error e) =
      ({ status := 400, headers := []
         body := ResponseBody.json [("error", "Invalid request body")] }, 0) :=
  rfl

/-- C4: for every error value returned by the email sender, the handler
responds 500 with exactly the fixed body containing
"error": "Failed to send email"; the response is one constant independent
of the provider error, so no provider error detail appears in it. -/
theorem C4_provider_error_masked (send : Message → SendOutcome) (cfg : Config)
    (data : ProductEmail) (e : String)
    (h : send (productMessage cfg data) = Except.error e) :
    SendProductHandler send cfg (Except.ok data) =
      ({ status := 500, headers := []
         body := ResponseBody.json [("error", "Failed to send email")] }, 1) := by
  simp only [SendProductHandler, SendProductEmail, h]

/-- C4, witness: a failing provider produces the fixed 500 response, with
no trace of the provider's own error message. -/
theorem C4_provider_error_masked_witness :
    SendProductHandler providerFailing cfgAcme (Except.ok widgetRequest) =
      ({ status := 500, headers := []
         body := ResponseBody.json [("error", "Failed to send email")] }, 1) :=
  C4_provider_error_masked providerFailing cfgAcme widgetRequest
    "mailgun: connection refused" rfl

/-- C5, counterexample.  The claim says every response carries a header
named "Access-Control-Allow-Max-Age".  The middleware at src/main.go line
136 sets the header "Access-Control-Max-Age" (the standard CORS name):
the response to an ordinary POST request to the route carries no
"Access-Control-Allow-Max-Age" header. -/
theorem C5_counterexample :
    ("Access-Control-Allow-Max-Age", "86400") ∉
      (corsMiddleware "POST"
        (fun _ => SendProductHandler providerQueued cfgAcme (Except.ok widgetRequest))).1.headers := by
  decide

/-- C5, amended: every HTTP response produced by the server carries the
four headers Access-Control-Allow-Origin: http://localhost:5173,
Access-Control-Allow-Methods: POST, OPTIONS,
Access-Control-Allow-Headers: Content-Type, and
Access-Control-Max-Age: 86400 (not "Access-Control-Allow-Max-Age"). -/
theorem C5_cors_headers_on_every_response (method : String)
    (next : Unit → HttpResponse × ℕ) :
    ("Access-Control-Allow-Origin", "http://localhost:5173") ∈
      (corsMiddleware method next).1.headers ∧
    ("Access-Control-Allow-Methods", "POST, OPTIONS") ∈
      (corsMiddleware method next).1.headers ∧
    ("Access-Control-Allow-Headers", "Content-Type") ∈
      (corsMiddleware method next).1.headers ∧
    ("Access-Control-Max-Age", "86400") ∈
      (corsMiddleware method next).1.headers := by
  unfold corsMiddleware
  split
  · refine ⟨?_, ?_, ?_, ?_⟩ <;> simp [corsHeaders]
  · refine ⟨?_, ?_, ?_, ?_⟩ <;> simp [corsHeaders]

/-- C6: for every exact float value (modelled as a rational, of either
sign), the rendered price consists of an optional minus sign, an integer
part, a dot, and exactly two digits, and the printed value (negated under
a minus sign) differs from the exact value of 100·q by at most one half
(nearest-value rounding, ties to even); in particular the float64 9.1
renders as "9.10" and the float64 19.999 renders as "20.00". -/
theorem C6_price_two_decimals :
    (∀ q : ℚ, ∃ n : ℕ,
      (pad2 (n % 100)).length = 2 ∧
      ((0 ≤ q ∧ fmtF2 q = toString (n / 100) ++ "." ++ pad2 (n % 100) ∧
          |(n : ℚ) - 100 * q| ≤ 1 / 2) ∨
        (q < 0 ∧ fmtF2 q = "-" ++ (toString (n / 100) ++ "." ++ pad2 (n % 100)) ∧
          |(-(n : ℚ)) - 100 * q| ≤ 1 / 2))) ∧
    fmtF2 float9p1 = "9.10" ∧ fmtF2 float19p999 = "20.00" := by
  refine ⟨?_, by decide, by decide⟩
  intro q
  rcases le_or_lt 0 q with hq | hq
  · refine ⟨roundHalfEvenNat (100 * q.num.toNat) q.den,
      pad2_length _ (Nat.mod_lt _ (by norm_num)),
      Or.inl ⟨hq, ?_, roundHalfEvenNat_rat_bound q hq⟩⟩
    unfold fmtF2 fmtF2nn
    rw [if_neg (not_lt.mpr hq)]
  · refine ⟨roundHalfEvenNat (100 * (-q).num.toNat) (-q).den,
      pad2_length _ (Nat.mod_lt _ (by norm_num)),
      Or.inr ⟨hq, ?_, ?_⟩⟩
    · unfold fmtF2 fmtF2nn
      rw [if_pos hq]
    · have hb := roundHalfEvenNat_rat_bound (-q) (by linarith)
      rw [show (-((roundHalfEvenNat (100 * (-q).num.toNat) (-q).den : ℚ)) - 100 * q)
          = -(((roundHalfEvenNat (100 * (-q).num.toNat) (-q).den : ℚ)) - 100 * (-q)) from by
        ring]
      rw [abs_neg]
      exact hb

/-- C7, counterexample.  The claim says the body has no text before the
line "Product Details:".  The Go raw-string template at src/main.go line
62 opens with a line break, so every formatted body begins with a newline
character before that first line (and ends with a trailing newline): at a
concrete request the body equals neither the bare five-line template nor
the template with only a trailing newline, but the template surrounded by
a leading and a trailing newline. -/
theorem C7_counterexample :
    formatProductEmail plainData ≠
      "Product Details:\n---------------\nName: A\nPrice: $0.00\nDescription: B" ∧
    formatProductEmail plainData ≠
      "Product Details:\n---------------\nName: A\nPrice: $0.00\nDescription: B\n" ∧
    formatProductEmail plainData =
      "\nProduct Details:\n---------------\nName: A\nPrice: $0.00\nDescription: B\n" := by
  refine ⟨?_, ?_, ?_⟩ <;> decide

/-- C7, amended: for every product email request the formatted body is
exactly a newline, the line "Product Details:", the line "---------------",
the line "Name: " followed by the product name, the line "Price: $"
followed by the two-decimal price, the line "Description: " followed by
the description, and a final newline. -/
theorem C7_body_template (data : ProductEmail) :
    formatProductEmail data =
      "\nProduct Details:\n---------------\nName: " ++ data.ProductName ++
        "\nPrice: $" ++ fmtF2 data.Price ++ "\nDescription: " ++
        data.Description ++ "\n" := by
  apply String.ext
  simp [formatProductEmail, sprintf, sprintfAux]

/-- C8: for every configuration the composed sender address is the from
name, a space, an opening angle bracket, the from email, an at sign, the
domain, and a closing angle bracket; with from_name "Acme", from_email
"sales" and domain "acme.com" it is exactly "Acme <sales@acme.com>". -/
theorem C8_sender_format :
    (∀ cfg : Config,
      senderString cfg =
        cfg.FromName ++ " <" ++ cfg.FromEmail ++ "@" ++ cfg.Domain ++ ">") ∧
    senderString cfgAcme = "Acme <sales@acme.com>" := by
  constructor
  · intro cfg
    apply String.ext
    simp [senderString, sprintf, sprintfAux]
  · decide

/-- C9: every OPTIONS request, whatever downstream chain the router would
run for its path, is answered by the middleware itself with status 204, an
empty body and the four CORS headers, and the downstream handler — hence
the email sender — is invoked zero times. -/
theorem C9_options_shortcircuit (next : Unit → HttpResponse × ℕ) :
    corsMiddleware "OPTIONS" next =
      ({ status := 204, headers := corsHeaders, body := ResponseBody.empty }, 0) :=
  rfl

/-- C10: the formatted body is a function of product name, price and
description only, and the subject is the constant "Product Information":
two requests agreeing on those three fields yield identical bodies,
subjects and sender addresses, while the recipient field only determines
the provider-submitted recipient address. -/
theorem C10_body_independent_of_recipient (cfg : Config) (d1 d2 : ProductEmail)
    (hn : d1.ProductName = d2.ProductName) (hp : d1.Price = d2.Price)
    (hd : d1.Description = d2.Description) :
    formatProductEmail d1 = formatProductEmail d2 ∧
    (productMessage cfg d1).subject = "Product Information" ∧
    (productMessage cfg d1).subject = (productMessage cfg d2).subject ∧
    (productMessage cfg d1).sender = (productMessage cfg d2).sender ∧
    (productMessage cfg d1).body = (productMessage cfg d2).body ∧
    (productMessage cfg d1).recipient = d1.RecipientEmail ∧
    (productMessage cfg d2).recipient = d2.RecipientEmail := by
  obtain ⟨n1, p1, s1, r1⟩ := d1
  obtain ⟨n2, p2, s2, r2⟩ := d2
  dsimp only at hn hp hd
  subst hn
  subst hp
  subst hd
  exact ⟨rfl, rfl, rfl, rfl, rfl, rfl, rfl⟩

/-- C10, witness: two requests with the same product data and different
recipients produce the same body, subject and sender; each message goes to
its own recipient. -/
theorem C10_body_independent_of_recipient_witness :
    formatProductEmail reqToAlice = formatProductEmail reqToBob ∧
    (productMessage cfgAcme reqToAlice).subject = "Product Information" ∧
    (productMessage cfgAcme reqToAlice).subject = (productMessage cfgAcme reqToBob).subject ∧
    (productMessage cfgAcme reqToAlice).sender = (productMessage cfgAcme reqToBob).sender ∧
    (productMessage cfgAcme reqToAlice).body = (productMessage cfgAcme reqToBob).body ∧
    (productMessage cfgAcme reqToAlice).recipient = reqToAlice.RecipientEmail ∧
    (productMessage cfgAcme reqToBob).recipient = reqToBob.RecipientEmail :=
  C10_body_independent_of_recipient cfgAcme reqToAlice reqToBob rfl rfl rfl
